import Mathlib

/-!
Verification of the DELL P4317Q serial control program (p4317q.py).

The development shallowly embeds the frame codec, the reply-validation
pipeline and the generic value-access layer of the source file.  Byte
strings are lists of natural numbers (each entry a byte value); Python
slicing reply[a:b] becomes `slice`, int.from_bytes becomes `intFromBytes`,
and code that can raise becomes `Except PyErr`.
-/

namespace P4317q

/-- Every exception kind the program can raise on the paths modelled here.
The first six mirror the P4317qError subclasses used by __parse_reply;
parameterOverRange mirrors the (never raised) ParameterOverRange class;
valueError, keyError and overflowError mirror the Python builtins. -/
inductive PyErr where
  | header
  | length
  | format
  | resultCode (code : Nat)
  | command
  | checksum
  | parameterOverRange
  | valueError
  | keyError
  | overflowError
deriving DecidableEq, Repr

instance {ε α : Type} [DecidableEq ε] [DecidableEq α] : DecidableEq (Except ε α)
  | .error e₁, .error e₂ =>
    if h : e₁ = e₂ then .isTrue (by rw [h])
    else .isFalse (fun hh => h (Except.error.inj hh))
  | .error _, .ok _ => .isFalse (fun hh => Except.noConfusion hh)
  | .ok _, .error _ => .isFalse (fun hh => Except.noConfusion hh)
  | .ok a₁, .ok a₂ =>
    if h : a₁ = a₂ then .isTrue (by rw [h])
    else .isFalse (fun hh => h (Except.ok.inj hh))

/-- Python slicing l[a:b] for 0 ≤ a ≤ b (the only form the program uses):
drop the first a entries, keep at most b - a of the rest.  Out-of-range
bounds clamp, exactly as in Python. -/
def slice (l : List Nat) (a b : Nat) : List Nat :=
  (l.drop a).take (b - a)

/-- Big-endian int.from_bytes over a byte list; the empty list gives 0. -/
def intFromBytes (b : List Nat) : Nat :=
  b.foldl (fun a x => a * 256 + x) 0

/-- P4317Q.__calc_check_sum: XOR of every byte (the source returns the
single checksum byte; the XOR of bytes is itself a byte). -/
def calcCheckSum (v : List Nat) : Nat :=
  v.foldl Nat.xor 0

/-- Header.Command.value, the fixed 2-byte command-direction header. -/
def commandHeader : List Nat := [0x37, 0x51]

/-- Header.Reply.value, the fixed 2-byte reply-direction header. -/
def replyHeader : List Nat := [0x6f, 0x37]

/-- ReadWrite.Read.value. -/
def readValue : List Nat := [0xeb]

/-- ReadWrite.Write.value. -/
def writeValue : List Nat := [0xea]

/-- P4317Q.__build_cmd: header, then the length byte computed from the
actual byte counts of rw, cmd and data, then rw, cmd, data, then the XOR
checksum of everything so far.  The length is converted with
to_bytes(1, big), which raises OverflowError when it does not fit in one
byte; that failure is modelled as none. -/
def buildCmd (rw cmd data : List Nat) : Option (List Nat) :=
  if rw.length + cmd.length + data.length < 256 then
    some ((commandHeader ++ [rw.length + cmd.length + data.length] ++ rw ++ cmd ++ data) ++
      [calcCheckSum (commandHeader ++ [rw.length + cmd.length + data.length] ++ rw ++ cmd ++ data)])
  else
    none

/-- Declared length byte of a reply: int.from_bytes(reply[2:3], big). -/
def declLen (reply : List Nat) : Nat :=
  intFromBytes (slice reply 2 3)

/-- First check of __parse_reply: reply[0:2] equals the reply header. -/
abbrev headerOk (reply : List Nat) : Prop :=
  slice reply 0 2 = replyHeader

/-- Second check: the declared length byte equals len(reply) - 4.  The
comparison is over the integers because the Python right-hand side can be
negative on short input. -/
abbrev lengthOk (reply : List Nat) : Prop :=
  (declLen reply : Int) = (reply.length : Int) - 4

/-- Third check: the reply-marker byte reply[3:4] equals 0x02. -/
abbrev markerOk (reply : List Nat) : Prop :=
  slice reply 3 4 = [0x02]

/-- Fourth check: the result-code byte reply[4:5] equals Success (0x00). -/
abbrev resultOk (reply : List Nat) : Prop :=
  slice reply 4 5 = [0x00]

/-- Fifth check: the echoed opcode reply[5:6] equals the expected one. -/
abbrev cmdOk (cmd reply : List Nat) : Prop :=
  slice reply 5 6 = cmd

/-- Sixth check: the trailing byte reply[ln+3:ln+4] equals the checksum
recomputed over reply[0:ln+3], where ln is the declared length. -/
abbrev checkSumOk (reply : List Nat) : Prop :=
  slice reply (declLen reply + 3) (declLen reply + 4) =
    [calcCheckSum (slice reply 0 (declLen reply + 3))]

/-- P4317Q.__parse_reply: sequential fail-fast validation; on success the
payload is none when the declared length is below 4, otherwise the slice
reply[6:ln+3]. -/
def parseReply (cmd reply : List Nat) : Except PyErr (Option (List Nat)) :=
  if headerOk reply then
    if lengthOk reply then
      if markerOk reply then
        if resultOk reply then
          if cmdOk cmd reply then
            if checkSumOk reply then
              .ok (if declLen reply < 4 then none
                   else some (slice reply 6 (declLen reply + 3)))
            else .error .checksum
          else .error .command
        else .error (.resultCode (intFromBytes (slice reply 4 5)))
      else .error .format
    else .error .length
  else .error .header

/-- A well-formed reply frame for opcode O and payload P, as the spec
describes it: reply header, length byte 3+len(P), body 0x02, Success, O,
P, and the XOR checksum of all preceding bytes. -/
def replyFrame (O : Nat) (P : List Nat) : List Nat :=
  let body := 0x6f :: 0x37 :: (3 + P.length) :: 0x02 :: 0x00 :: O :: P
  body ++ [calcCheckSum body]

/-- State enum: Off, On, in declaration order. -/
inductive State where
  | Off
  | On
deriving DecidableEq, BEq, Repr

/-- Byte value of each State member. -/
def State.value : State → List Nat
  | .Off => [0x00]
  | .On => [0x01]

/-- list(State): the members in declaration order. -/
def State.members : List State := [.Off, .On]

/-- Language enum in declaration order. -/
inductive Language where
  | English
  | Spanish
  | French
  | German
  | Portuguese
  | Russian
  | Chinese
  | Japanese
deriving DecidableEq, BEq, Repr

/-- Byte value of each Language member. -/
def Language.value : Language → List Nat
  | .English => [0x00]
  | .Spanish => [0x01]
  | .French => [0x02]
  | .German => [0x03]
  | .Portuguese => [0x04]
  | .Russian => [0x05]
  | .Chinese => [0x06]
  | .Japanese => [0x07]

/-- list(Language): the members in declaration order. -/
def Language.members : List Language :=
  [.English, .Spanish, .French, .German, .Portuguese, .Russian, .Chinese, .Japanese]

/-- Python list subscription with an int index: a negative index counts
from the end; an index out of range on either side raises IndexError,
modelled as none. -/
def pyListGet {α : Type} (l : List α) (i : Int) : Option α :=
  if i < 0 then
    if (l.length : Int) + i < 0 then none else l[((l.length : Int) + i).toNat]?
  else
    l[i.toNat]?

/-- Enumeration branch of P4317Q.set_value with an UpDown argument: the
candidate is list(T)[list(T).index(old) + ud.value].  When that index
raises IndexError the fallback evaluates T[0] (stepping up) or T[-1]
(stepping down); but subscripting an Enum class looks the key up as a
member NAME, so an integer key raises KeyError, which nothing catches. -/
def setValueStepEnum {α : Type} [BEq α] (members : List α) (old : α) (ud : Int) :
    Except PyErr α :=
  match pyListGet members ((members.indexOf old : Int) + ud) with
  | some x => .ok x
  | none => .error .keyError

/-- Python int.to_bytes(1, big): the single byte for 0 ≤ v < 256, and
OverflowError otherwise (negative values included). -/
def intToBytes1 (v : Int) : Except PyErr (List Nat) :=
  if 0 ≤ v ∧ v < 256 then .ok [v.toNat] else .error .overflowError

/-- The validating bounded-integer setter shared by brightness, contrast,
osd_transparency (range(0, 100)) and osd_timer (range(5, 60)): raise
ValueError when v is not in range(lo, hi), otherwise build and write the
one-exchange Write command carrying v.to_bytes(1, big).  The returned
frame is the exact byte string handed to the transport; an error means
the setter raised before any transport I/O. -/
def boundedSetter (lo hi : Int) (op : Nat) (v : Int) : Except PyErr (List Nat) :=
  if lo ≤ v ∧ v < hi then
    match intToBytes1 v with
    | .ok data =>
      match buildCmd writeValue [op] data with
      | some frame => .ok frame
      | none => .error .overflowError
    | .error e => .error e
  else
    .error .valueError

/-- The brightness setter: range(0, 100) over opcode 0x30. -/
def brightnessSetter (v : Int) : Except PyErr (List Nat) :=
  boundedSetter 0 100 0x30 v

/-- The sharpness setter as written in the source: no range check at all;
it converts v with to_bytes(1, big) and writes the command for opcode
0x34 directly. -/
def sharpnessSetter (v : Int) : Except PyErr (List Nat) :=
  match intToBytes1 v with
  | .ok data =>
    match buildCmd writeValue [0x34] data with
    | some frame => .ok frame
    | none => .error .overflowError
  | .error e => .error e

/-- Integer branch of P4317Q.set_value with an UpDown argument: the
candidate is old + ud.value; the setter call is wrapped in
try/except ValueError, which holds the old value on a validation
failure.  The result carries the value returned and the command frame
written to the transport, if any (none means the candidate never reached
the wire). -/
def setValueStepInt (setter : Int → Except PyErr (List Nat)) (old ud : Int) :
    Except PyErr (Int × Option (List Nat)) :=
  match setter (old + ud) with
  | .ok frame => .ok (old + ud, some frame)
  | .error .valueError => .ok (old, none)
  | .error e => .error e

/-- Flip bit b of the byte at position i of a frame. -/
def flipBit (r : List Nat) (i b : Nat) : List Nat :=
  r.set i ((r.getD i 0) ^^^ (2 ^ b))

theorem xor_left_comm (a b c : Nat) : a ^^^ (b ^^^ c) = b ^^^ (a ^^^ c) := by
  rw [← Nat.xor_assoc, Nat.xor_comm a b, Nat.xor_assoc]

theorem foldl_xor_acc (l : List Nat) (a : Nat) :
    l.foldl Nat.xor a = a ^^^ l.foldl Nat.xor 0 := by
  induction l generalizing a with
  | nil => simp
  | cons x l ih =>
    show List.foldl Nat.xor (a ^^^ x) l = a ^^^ List.foldl Nat.xor (0 ^^^ x) l
    rw [ih (a ^^^ x), ih (0 ^^^ x), Nat.zero_xor, Nat.xor_assoc]

theorem calcCheckSum_nil : calcCheckSum [] = 0 := rfl

theorem calcCheckSum_cons (x : Nat) (l : List Nat) :
    calcCheckSum (x :: l) = x ^^^ calcCheckSum l := by
  show List.foldl Nat.xor (0 ^^^ x) l = x ^^^ List.foldl Nat.xor 0 l
  rw [foldl_xor_acc, Nat.zero_xor]

theorem calcCheckSum_append (l₁ l₂ : List Nat) :
    calcCheckSum (l₁ ++ l₂) = calcCheckSum l₁ ^^^ calcCheckSum l₂ := by
  induction l₁ with
  | nil => simp [calcCheckSum_nil]
  | cons x l ih => simp [calcCheckSum_cons, ih, Nat.xor_assoc]

theorem calcCheckSum_set (l : List Nat) (i v : Nat) (h : i < l.length) :
    calcCheckSum (l.set i v) = (calcCheckSum l ^^^ l.getD i 0) ^^^ v := by
  induction l generalizing i with
  | nil => simp at h
  | cons x l ih =>
    cases i with
    | zero =>
      simp only [List.set_cons_zero, List.getD_cons_zero, calcCheckSum_cons]
      simp [Nat.xor_assoc, Nat.xor_comm, xor_left_comm, Nat.xor_cancel_left]
    | succ i =>
      have hi : i < l.length := by simpa using h
      simp only [List.set_cons_succ, List.getD_cons_succ, calcCheckSum_cons, ih i hi]
      simp [Nat.xor_assoc, Nat.xor_comm, xor_left_comm]

theorem parse_ok_all (cmd reply : List Nat) (d : Option (List Nat))
    (h : parseReply cmd reply = .ok d) :
    headerOk reply ∧ lengthOk reply ∧ markerOk reply ∧ resultOk reply ∧
      cmdOk cmd reply ∧ checkSumOk reply := by
  unfold parseReply at h
  by_cases h1 : headerOk reply
  · rw [if_pos h1] at h
    by_cases h2 : lengthOk reply
    · rw [if_pos h2] at h
      by_cases h3 : markerOk reply
      · rw [if_pos h3] at h
        by_cases h4 : resultOk reply
        · rw [if_pos h4] at h
          by_cases h5 : cmdOk cmd reply
          · rw [if_pos h5] at h
            by_cases h6 : checkSumOk reply
            · exact ⟨h1, h2, h3, h4, h5, h6⟩
            · rw [if_neg h6] at h; exact absurd h (by simp)
          · rw [if_neg h5] at h; exact absurd h (by simp)
        · rw [if_neg h4] at h; exact absurd h (by simp)
      · rw [if_neg h3] at h; exact absurd h (by simp)
    · rw [if_neg h2] at h; exact absurd h (by simp)
  · rw [if_neg h1] at h; exact absurd h (by simp)

theorem slice_prefix (l₁ l₂ : List Nat) (n : Nat) (h : n = l₁.length) :
    slice (l₁ ++ l₂) 0 n = l₁ := by
  unfold slice
  rw [List.drop_zero, Nat.sub_zero, List.take_left' h.symm]

theorem slice_from (l₁ l₂ : List Nat) (n m : Nat) (h : n = l₁.length) :
    slice (l₁ ++ l₂) n (n + m) = l₂.take m := by
  unfold slice
  rw [List.drop_left' h.symm]
  congr 1
  omega

theorem slice_one_at (l₁ l₂ : List Nat) (x : Nat) (n : Nat) (h : n = l₁.length) :
    slice (l₁ ++ x :: l₂) n (n + 1) = [x] := by
  unfold slice
  rw [List.drop_left' h.symm]
  have h1 : n + 1 - n = 1 := by omega
  rw [h1]
  rfl

/-- C2: the reply decoder performs its checks in exactly this order and
raises the first failing check with its distinct error: header mismatch
raises HeaderError; then a declared length different from total bytes
minus 4 raises LengthError; then a reply marker other than 0x02 raises
FormatError; then a non-Success result byte raises ResultCodeError
carrying the numeric code; then a wrong echoed opcode raises
CommandError; then a checksum mismatch over bytes 0..length+3 raises
ChecksumError. -/
theorem parse_reply_check_order (cmd reply : List Nat) :
    (¬ headerOk reply → parseReply cmd reply = .error .header) ∧
    (headerOk reply → ¬ lengthOk reply → parseReply cmd reply = .error .length) ∧
    (headerOk reply → lengthOk reply → ¬ markerOk reply →
      parseReply cmd reply = .error .format) ∧
    (headerOk reply → lengthOk reply → markerOk reply → ¬ resultOk reply →
      parseReply cmd reply = .error (.resultCode (intFromBytes (slice reply 4 5)))) ∧
    (headerOk reply → lengthOk reply → markerOk reply → resultOk reply →
      ¬ cmdOk cmd reply → parseReply cmd reply = .error .command) ∧
    (headerOk reply → lengthOk reply → markerOk reply → resultOk reply →
      cmdOk cmd reply → ¬ checkSumOk reply → parseReply cmd reply = .error .checksum) := by
  unfold parseReply
  refine ⟨fun h1 => ?_, fun h1 h2 => ?_, fun h1 h2 h3 => ?_, fun h1 h2 h3 h4 => ?_,
    fun h1 h2 h3 h4 h5 => ?_, fun h1 h2 h3 h4 h5 h6 => ?_⟩
  · rw [if_neg h1]
  · rw [if_pos h1, if_neg h2]
  · rw [if_pos h1, if_pos h2, if_neg h3]
  · rw [if_pos h1, if_pos h2, if_pos h3, if_neg h4]
  · rw [if_pos h1, if_pos h2, if_pos h3, if_pos h4, if_neg h5]
  · rw [if_pos h1, if_pos h2, if_pos h3, if_pos h4, if_pos h5, if_neg h6]

/-- Witness for C2 at a concrete input: a frame with a wrong header is
rejected with HeaderError. -/
theorem parse_reply_check_order_witness :
    parseReply [0x30] [0, 0, 0, 0] = .error .header :=
  (parse_reply_check_order [0x30] [0, 0, 0, 0]).1 (by decide)

/-- C10: the reply decoder is total: every input either yields a payload
option or one of the protocol errors, and every input shorter than 4
bytes is rejected by the header or the length check before any later
check reads beyond the available bytes. -/
theorem parse_reply_total (cmd reply : List Nat) :
    ((∃ e, parseReply cmd reply = .error e) ∨ (∃ d, parseReply cmd reply = .ok d)) ∧
    (reply.length < 4 →
      parseReply cmd reply = .error .header ∨ parseReply cmd reply = .error .length) := by
  constructor
  · cases hpr : parseReply cmd reply with
    | error e => exact Or.inl ⟨e, rfl⟩
    | ok d => exact Or.inr ⟨d, rfl⟩
  · intro hlen
    by_cases h1 : headerOk reply
    · right
      have h2 : ¬ lengthOk reply := by
        intro h2
        have h0 : (0 : Int) ≤ (declLen reply : Int) := Int.natCast_nonneg _
        omega
      unfold parseReply
      rw [if_pos h1, if_neg h2]
    · left
      unfold parseReply
      rw [if_neg h1]

/-- Witness for C10 at a concrete input: the empty reply is rejected with
HeaderError or LengthError. -/
theorem parse_reply_total_witness :
    parseReply [0x30] [] = .error .header ∨ parseReply [0x30] [] = .error .length :=
  (parse_reply_total [0x30] []).2 (by decide)

/-- C3 (code bug): stepping a closed enumeration up from its last member
is supposed to wrap to the first member, but the IndexError fallback of
set_value subscripts the Enum class with an integer, which raises an
uncaught KeyError; stepping down from the first member does wrap to the
last member, through Python negative list indexing. -/
theorem step_enum_wrap_bug :
    setValueStepEnum State.members State.On 1 = .error .keyError ∧
    setValueStepEnum State.members State.Off (-1) = .ok State.On ∧
    setValueStepEnum Language.members Language.Japanese 1 = .error .keyError ∧
    setValueStepEnum Language.members Language.English (-1) = .ok Language.Japanese := by
  decide

/-- C4: stepping a bounded-integer property with a validating setter past
either end of its range is a no-op: the candidate raises ValueError
inside the setter before any transport write, the except branch restores
the old value, and no command frame is produced. -/
theorem step_bounded_noop (lo hi : Int) (op : Nat) :
    setValueStepInt (boundedSetter lo hi op) lo (-1) = .ok (lo, none) ∧
    setValueStepInt (boundedSetter lo hi op) (hi - 1) 1 = .ok (hi - 1, none) := by
  constructor
  · have hset : boundedSetter lo hi op (lo + -1) = .error .valueError := by
      unfold boundedSetter
      rw [if_neg (by omega)]
    unfold setValueStepInt
    rw [hset]
  · have hset : boundedSetter lo hi op (hi - 1 + 1) = .error .valueError := by
      unfold boundedSetter
      rw [if_neg (by omega)]
    unfold setValueStepInt
    rw [hset]

/-- C5 counterexample: setting brightness to 150 raises the builtin
ValueError, not the ParameterOverRange error kind the claim names (that
exception class exists in the source but is never raised). -/
theorem brightness_150_valueError :
    brightnessSetter 150 = .error .valueError ∧
    brightnessSetter 150 ≠ .error .parameterOverRange := by
  decide

/-- C5 amended: for every bounded-integer property, a value outside the
declared range fails with ValueError, and the failure happens before the
command frame for the transport is ever built, so zero bytes are
written. -/
theorem set_absolute_out_of_range (lo hi : Int) (op : Nat) (v : Int)
    (h : ¬ (lo ≤ v ∧ v < hi)) :
    boundedSetter lo hi op v = .error .valueError := by
  unfold boundedSetter
  rw [if_neg h]

/-- Witness for the amended C5 at a concrete input. -/
theorem set_absolute_out_of_range_witness :
    boundedSetter 0 100 0x30 150 = .error .valueError :=
  set_absolute_out_of_range 0 100 0x30 150 (by decide)

/-- C6 counterexample: reading brightness produces the command frame
37 51 02 EB 30 BF, whose length byte is 0x02, not the 0x03 the claim
states; and the reply frame of the claim, with declared length 5 but 8
total bytes, is rejected with LengthError instead of decoding to 50. -/
theorem brightness_frames_spec_mismatch :
    buildCmd readValue [0x30] [] = some [0x37, 0x51, 0x02, 0xeb, 0x30, 0xbf] ∧
    (some [0x37, 0x51, 0x02, 0xeb, 0x30, 0xbf] : Option (List Nat)) ≠
      some [0x37, 0x51, 0x03, 0xeb, 0x30, 0xbe] ∧
    parseReply [0x30] [0x6f, 0x37, 0x05, 0x02, 0x00, 0x30, 0x32, 0x5d] =
      .error .length := by
  decide

/-- C6 amended: reading brightness produces the command bytes
37 51 02 EB 30 followed by the XOR checksum BF, and the reply frame
6F 37 04 02 00 30 32 5C, with declared length 4, success result, echoed
opcode 0x30 and data byte 0x32, passes validation and decodes to the
integer value 50. -/
theorem brightness_read_frames :
    buildCmd readValue [0x30] [] = some [0x37, 0x51, 0x02, 0xeb, 0x30, 0xbf] ∧
    parseReply [0x30] [0x6f, 0x37, 0x04, 0x02, 0x00, 0x30, 0x32, 0x5c] =
      .ok (some [0x32]) ∧
    intFromBytes [0x32] = 50 := by
  decide

/-- C7 counterexample: the command encoder does have a failure path: a
payload whose body does not fit the one-byte length field makes
to_bytes(1, big) raise OverflowError, modelled here as none. -/
theorem build_cmd_overflow :
    buildCmd readValue [0x30] (List.replicate 254 0) = none := by
  unfold buildCmd
  rw [if_neg (by simp only [readValue, List.length_replicate, List.length_cons,
    List.length_nil]; omega)]

/-- C7 amended: whenever the body length fits in one byte, the command
encoder succeeds and produces exactly header, length byte computed from
the actual byte counts, rw, opcode, data, and the XOR checksum of every
preceding byte; the XOR of the whole resulting frame is therefore 0. -/
theorem build_cmd_format (rw cmd data : List Nat)
    (h : rw.length + cmd.length + data.length ≤ 255) :
    buildCmd rw cmd data =
      some ((commandHeader ++ [rw.length + cmd.length + data.length] ++ rw ++ cmd ++ data) ++
        [calcCheckSum (commandHeader ++ [rw.length + cmd.length + data.length] ++
          rw ++ cmd ++ data)]) ∧
    calcCheckSum ((commandHeader ++ [rw.length + cmd.length + data.length] ++ rw ++ cmd ++ data) ++
        [calcCheckSum (commandHeader ++ [rw.length + cmd.length + data.length] ++
          rw ++ cmd ++ data)]) = 0 := by
  constructor
  · unfold buildCmd
    rw [if_pos (by omega)]
  · rw [calcCheckSum_append, calcCheckSum_cons, calcCheckSum_nil, Nat.xor_zero, Nat.xor_self]

/-- Witness for the amended C7 at a concrete input. -/
theorem build_cmd_format_witness :
    buildCmd readValue [0x30] [] = some [0x37, 0x51, 0x02, 0xeb, 0x30, 0xbf] := by
  have h := build_cmd_format readValue [0x30] [] (by decide)
  exact h.1.trans (by decide)

/-- C9 (code bug): the sharpness setter performs no range validation at
all: sharpness 150, unlike brightness 150, builds the Write command
frame 37 51 03 EA 34 96 2D and hands it to the transport instead of
failing first. -/
theorem sharpness_set_unvalidated :
    sharpnessSetter 150 = .ok [0x37, 0x51, 0x03, 0xea, 0x34, 0x96, 0x2d] ∧
    brightnessSetter 150 = .error .valueError := by
  decide

/-- C1: for every opcode O and payload P of bytes, the well-formed reply
frame with length byte 3+len(P), body 0x02, Success, O, P and a correct
trailing XOR checksum decodes, with expected opcode O, to exactly P when
P is non-empty, and to none when P is empty (declared length below 4). -/
theorem parse_wellformed_reply (O : Nat) (P : List Nat) (hO : O < 256)
    (hP : ∀ x ∈ P, x < 256) (hl : 3 + P.length ≤ 255) :
    parseReply [O] (replyFrame O P) = .ok (if P = [] then none else some P) := by
  have hframe : replyFrame O P =
      ([0x6f, 0x37, 3 + P.length, 0x02, 0x00, O] ++ P) ++
        [calcCheckSum ([0x6f, 0x37, 3 + P.length, 0x02, 0x00, O] ++ P)] := rfl
  have hcons : replyFrame O P =
      0x6f :: 0x37 :: (3 + P.length) :: 0x02 :: 0x00 :: O ::
        (P ++ [calcCheckSum ([0x6f, 0x37, 3 + P.length, 0x02, 0x00, O] ++ P)]) := by
    rw [hframe]
    simp [List.cons_append]
  have hlen7 : (replyFrame O P).length = 7 + P.length := by
    rw [hcons]
    simp only [List.length_cons, List.length_append, List.length_nil]
    omega
  have hdecl : declLen (replyFrame O P) = 3 + P.length := by
    unfold declLen
    rw [hcons]
    show intFromBytes [3 + P.length] = 3 + P.length
    simp [intFromBytes]
  have h1 : headerOk (replyFrame O P) := by
    rw [hcons]; rfl
  have h2 : lengthOk (replyFrame O P) := by
    show (declLen (replyFrame O P) : Int) = ((replyFrame O P).length : Int) - 4
    rw [hdecl, hlen7]
    omega
  have h3 : markerOk (replyFrame O P) := by
    rw [hcons]; rfl
  have h4 : resultOk (replyFrame O P) := by
    rw [hcons]; rfl
  have h5 : cmdOk [O] (replyFrame O P) := by
    rw [hcons]; rfl
  have h6 : checkSumOk (replyFrame O P) := by
    show slice (replyFrame O P) (declLen (replyFrame O P) + 3)
        (declLen (replyFrame O P) + 4) =
      [calcCheckSum (slice (replyFrame O P) 0 (declLen (replyFrame O P) + 3))]
    rw [hdecl, hframe]
    have e0 : 3 + P.length + 4 = (3 + P.length + 3) + 1 := by omega
    rw [e0]
    have hA : 3 + P.length + 3 =
        (([0x6f, 0x37, 3 + P.length, 0x02, 0x00, O] : List Nat) ++ P).length := by
      simp only [List.length_append, List.length_cons, List.length_nil]
      omega
    rw [slice_one_at _ [] _ _ hA, slice_prefix _ _ _ hA]
  have hdata : slice (replyFrame O P) 6 (3 + P.length + 3) = P := by
    have hframe2 : replyFrame O P =
        [0x6f, 0x37, 3 + P.length, 0x02, 0x00, O] ++
          (P ++ [calcCheckSum ([0x6f, 0x37, 3 + P.length, 0x02, 0x00, O] ++ P)]) := by
      rw [hframe, List.append_assoc]
    rw [hframe2]
    have e0 : 3 + P.length + 3 = 6 + P.length := by omega
    rw [e0]
    have h6len : (6 : Nat) = ([0x6f, 0x37, 3 + P.length, 0x02, 0x00, O] : List Nat).length := rfl
    rw [slice_from _ _ 6 P.length h6len]
    exact List.take_left' rfl
  unfold parseReply
  rw [if_pos h1, if_pos h2, if_pos h3, if_pos h4, if_pos h5, if_pos h6, hdecl, hdata]
  by_cases hP0 : P = []
  · subst hP0
    simp
  · have hlp : 0 < P.length := List.length_pos.mpr hP0
    have h4c : ¬ (3 + P.length < 4) := by omega
    rw [if_neg h4c, if_neg hP0]

/-- Witness for C1 at a concrete input: opcode 0x30 with the one-byte
payload 0x32. -/
theorem parse_wellformed_reply_witness :
    parseReply [0x30] (replyFrame 0x30 [0x32]) =
      .ok (if ([0x32] : List Nat) = [] then none else some [0x32]) :=
  parse_wellformed_reply 0x30 [0x32] (by decide) (by decide) (by decide)

/-- C8: flipping any single bit of a successfully decoding reply frame,
other than the trailing checksum byte, makes the decoder raise an error;
and whenever the five earlier checks (header, length, marker, result
code, echoed opcode) still pass on the flipped frame, the error raised
is ChecksumError. -/
theorem flip_bit_detected (cmd r : List Nat) (d : Option (List Nat))
    (hok : parseReply cmd r = .ok d) (i b : Nat)
    (hi : i < r.length) (hne : i + 1 ≠ r.length) (hb : b < 8) :
    (∃ e, parseReply cmd (flipBit r i b) = .error e) ∧
    (headerOk (flipBit r i b) → lengthOk (flipBit r i b) → markerOk (flipBit r i b) →
      resultOk (flipBit r i b) → cmdOk cmd (flipBit r i b) →
      parseReply cmd (flipBit r i b) = .error .checksum) := by
  obtain ⟨h1, h2, h3, h4, h5, h6⟩ := parse_ok_all cmd r d hok
  have hlenr : r.length = declLen r + 4 := by
    have h0 : (0 : Int) ≤ (declLen r : Int) := Int.natCast_nonneg _
    omega
  have hlen' : (flipBit r i b).length = r.length := by
    simp [flipBit]
  have hile : i < declLen r + 3 := by omega
  have key : headerOk (flipBit r i b) → lengthOk (flipBit r i b) → markerOk (flipBit r i b) →
      resultOk (flipBit r i b) → cmdOk cmd (flipBit r i b) →
      parseReply cmd (flipBit r i b) = .error .checksum := by
    intro g1 g2 g3 g4 g5
    have hd' : declLen (flipBit r i b) = declLen r := by
      have g2c : (declLen (flipBit r i b) : Int) = ((flipBit r i b).length : Int) - 4 := g2
      rw [hlen'] at g2c
      omega
    have e1 : slice (flipBit r i b) (declLen r + 3) (declLen r + 4) =
        slice r (declLen r + 3) (declLen r + 4) := by
      unfold slice flipBit
      rw [List.drop_set, if_pos hile]
    have hgd : (slice r 0 (declLen r + 3)).getD i 0 = r.getD i 0 := by
      unfold slice
      rw [List.drop_zero, Nat.sub_zero, List.getD_eq_getElem?_getD,
        List.getD_eq_getElem?_getD, List.getElem?_take_of_lt hile]
    have e2 : slice (flipBit r i b) 0 (declLen r + 3) =
        (slice r 0 (declLen r + 3)).set i ((r.getD i 0) ^^^ 2 ^ b) := by
      show ((r.set i ((r.getD i 0) ^^^ 2 ^ b)).drop 0).take (declLen r + 3 - 0) =
        ((r.drop 0).take (declLen r + 3 - 0)).set i ((r.getD i 0) ^^^ 2 ^ b)
      rw [List.drop_zero, List.drop_zero, List.set_take]
    have hi2 : i < (slice r 0 (declLen r + 3)).length := by
      simp only [slice, List.drop_zero, List.length_take]
      omega
    have hxor : calcCheckSum (slice (flipBit r i b) 0 (declLen r + 3)) =
        calcCheckSum (slice r 0 (declLen r + 3)) ^^^ 2 ^ b := by
      rw [e2, ← hgd, calcCheckSum_set _ _ _ hi2, hgd]
      rw [Nat.xor_assoc, ← hgd, Nat.xor_cancel_left]
    have hcs : ¬ checkSumOk (flipBit r i b) := by
      intro hc
      have hc2 : slice (flipBit r i b) (declLen (flipBit r i b) + 3)
          (declLen (flipBit r i b) + 4) =
          [calcCheckSum (slice (flipBit r i b) 0 (declLen (flipBit r i b) + 3))] := hc
      rw [hd'] at hc2
      rw [e1, hxor, h6] at hc2
      have hCeq : calcCheckSum (slice r 0 (declLen r + 3)) =
          calcCheckSum (slice r 0 (declLen r + 3)) ^^^ 2 ^ b := by
        simpa using hc2
      have h0 : calcCheckSum (slice r 0 (declLen r + 3)) ^^^ 0 =
          calcCheckSum (slice r 0 (declLen r + 3)) ^^^ 2 ^ b := by
        rw [Nat.xor_zero]
        exact hCeq
      have h2b : 2 ^ b = 0 := (Nat.xor_right_inj.mp h0).symm
      have hpos : 0 < 2 ^ b := pow_pos (by norm_num) b
      omega
    unfold parseReply
    rw [if_pos g1, if_pos g2, if_pos g3, if_pos g4, if_pos g5, if_neg hcs]
  refine ⟨?_, key⟩
  cases hpr : parseReply cmd (flipBit r i b) with
  | error e => exact ⟨e, rfl⟩
  | ok d2 =>
    obtain ⟨g1, g2, g3, g4, g5, g6⟩ := parse_ok_all cmd (flipBit r i b) d2 hpr
    have hk := key g1 g2 g3 g4 g5
    rw [hpr] at hk
    exact absurd hk (by simp)

/-- Witness for C8 at a concrete input: the valid brightness reply frame
with bit 0 of its data byte flipped. -/
theorem flip_bit_detected_witness :
    (∃ e, parseReply [0x30] (flipBit [0x6f, 0x37, 0x04, 0x02, 0x00, 0x30, 0x32, 0x5c] 6 0) =
      .error e) ∧
    (headerOk (flipBit [0x6f, 0x37, 0x04, 0x02, 0x00, 0x30, 0x32, 0x5c] 6 0) →
      lengthOk (flipBit [0x6f, 0x37, 0x04, 0x02, 0x00, 0x30, 0x32, 0x5c] 6 0) →
      markerOk (flipBit [0x6f, 0x37, 0x04, 0x02, 0x00, 0x30, 0x32, 0x5c] 6 0) →
      resultOk (flipBit [0x6f, 0x37, 0x04, 0x02, 0x00, 0x30, 0x32, 0x5c] 6 0) →
      cmdOk [0x30] (flipBit [0x6f, 0x37, 0x04, 0x02, 0x00, 0x30, 0x32, 0x5c] 6 0) →
      parseReply [0x30] (flipBit [0x6f, 0x37, 0x04, 0x02, 0x00, 0x30, 0x32, 0x5c] 6 0) =
        .error .checksum) :=
  flip_bit_detected [0x30] [0x6f, 0x37, 0x04, 0x02, 0x00, 0x30, 0x32, 0x5c] (some [0x32])
    (by decide) 6 0 (by decide) (by decide) (by decide)
